import Mathlib

/-!
# Shallow embedding of the bidbot auction bot

This file embeds the two JavaScript source files of the repository:

* `src/unnamed/part_000` — the variant with auction duration and bid
  direction (`/createitem <name> <low> <high> <minutes> <low|high>`),
  a periodic finalization sweep and `/biddeditems`;
* `src/index.js` — the simpler variant (`/createitem <name> <low> <high>`)
  with a plain two-sided range check on `/bid`.

Persistent MongoDB state (the `users`, `items` and `bids` collections) is
embedded as lists of records.  Amounts are parsed from the `(\d+)` capture
groups of the command regexes, so they are nonnegative integers and are
embedded as `Nat`; `Date` values are embedded as `Nat` millisecond counts.

One point needs particular care: in MongoDB a document field can be
*absent*, *null*, or hold a value, and these three states behave
differently (`$exists: true` matches a null field; JavaScript truthiness
does not).  The `highestBid` field is therefore embedded as
`Option (Option Bid)`: `none` = field absent, `some none` = field present
with value `null`, `some (some b)` = field holds bid `b`.  JavaScript's
truthiness test `if (item.highestBid)` is `Option.join`.

Mongo driver operations are embedded as: `findOne` = `List.find?` (first
match in natural order), `insertOne` = append, `updateOne` = update of the
first matching record, `deleteOne` = removal of the first matching record.
Fallible infrastructure (a transaction aborting, a lookup or message send
rejecting) is driven by explicit Boolean oracles, since the code branches
on success/failure via try/catch.
-/

/-- A record of the `users` collection: `{ userId, chatId }`
(inserted by the `/register` handler). -/
structure User where
  userId : Nat
  chatId : Nat
deriving Repr, DecidableEq

/-- A record of the `bids` collection:
`{ itemId, userId, amount, timestamp }` (inserted by the `/bid` handler). -/
structure Bid where
  itemId : Nat
  userId : Nat
  amount : Nat
  timestamp : Nat
deriving Repr, DecidableEq

/-- The bid direction of an item in `src/unnamed/part_000`
(fifth argument of `/createitem`, matched by `(low|high)`). -/
inductive BidDirection where
  | low
  | high
deriving Repr, DecidableEq, BEq

/-- A record of the `items` collection in `src/unnamed/part_000`:
`{ name, creatorId, lowAmount, highAmount, endTime, highestBid, completed,
bidDirection }` plus the Mongo-generated `_id` (embedded as `id`).
`highestBidField` is the raw Mongo field: `none` = absent, `some none` =
`null` (as written by `/createitem`), `some (some b)` = bid `b`. -/
structure Item where
  id : Nat
  name : String
  creatorId : Nat
  lowAmount : Nat
  highAmount : Nat
  endTime : Nat
  bidDirection : BidDirection
  highestBidField : Option (Option Bid)
  completed : Bool
deriving Repr, DecidableEq

/-- JavaScript truthiness of `item.highestBid`: both an absent field and a
`null` field are falsy; only an actual bid object is truthy. -/
def Item.highestBid (i : Item) : Option Bid :=
  i.highestBidField.join

/-- The persistent state of `src/unnamed/part_000`: the three collections
`users`, `items`, `bids` of the single MongoDB database. -/
structure DB where
  users : List User
  items : List Item
  bids : List Bid
deriving Repr, DecidableEq

/-- `updateOne` on a list: apply `f` to the first element satisfying `p`,
leave everything else unchanged (Mongo updates a single document). -/
def updateFirst (p : α → Bool) (f : α → α) : List α → List α
  | [] => []
  | x :: xs => if p x then f x :: xs else x :: updateFirst p f xs

/-- `deleteOne` on a list: remove the first element satisfying `p`. -/
def deleteFirst (p : α → Bool) : List α → List α
  | [] => []
  | x :: xs => if p x then xs else x :: deleteFirst p xs

/-- Reply of the `/register` handler. -/
inductive RegisterReply where
  | alreadyRegistered
  | success
  | infraError
deriving Repr, DecidableEq

/-- Result of the `/register` handler: new database state and reply. -/
structure RegisterResult where
  db : DB
  reply : RegisterReply
deriving Repr, DecidableEq

/-- The `/register` handler (identical in both source files): look the
user up by `userId`; if found reply "already registered" without writing;
otherwise insert `{ userId, chatId }` and reply with success.  `dbOk`
models the try/catch around the persistence calls: when the lookup or
insert rejects, nothing is (observably) written and a failure reply is
sent. -/
def register (dbOk : Bool) (db : DB) (userId chatId : Nat) : RegisterResult :=
  if dbOk then
    match db.users.find? (fun u => u.userId == userId) with
    | some _ => ⟨db, .alreadyRegistered⟩
    | none => ⟨{ db with users := db.users ++ [⟨userId, chatId⟩] }, .success⟩
  else ⟨db, .infraError⟩

/-- Reply of the `/createitem` handler. -/
inductive CreateReply where
  | invalidArgs
  | needRegister
  | created
  | infraError
deriving Repr, DecidableEq

/-- Result of the `/createitem` handler. -/
structure CreateResult where
  db : DB
  reply : CreateReply
deriving Repr, DecidableEq

/-- The `/createitem <name> <low> <high> <minutes> <low|high>` handler of
`src/unnamed/part_000`.  Validation (`lowAmount <= 0 || highAmount <= 0 ||
lowAmount >= highAmount`; the `isNaN` cases cannot arise from the `(\d+)`
captures) precedes the registration lookup; an unregistered user causes no
write; otherwise the item is inserted with `highestBid: null`
(`some none`), `completed: false` and
`endTime = now + minutes * 60000`.  `newId` stands for the Mongo-generated
`_id` of the inserted document; `dbOk` models the try/catch around the
lookup and insert.  Note that no duplicate-name check of any kind is
performed before the insert. -/
def createitem (dbOk : Bool) (db : DB) (newId now userId : Nat)
    (itemName : String) (lowAmount highAmount durationMinutes : Nat)
    (dir : BidDirection) : CreateResult :=
  if lowAmount = 0 || highAmount = 0 || highAmount ≤ lowAmount then
    ⟨db, .invalidArgs⟩
  else if dbOk then
    match db.users.find? (fun u => u.userId == userId) with
    | none => ⟨db, .needRegister⟩
    | some _ =>
      ⟨{ db with items := db.items ++
          [⟨newId, itemName, userId, lowAmount, highAmount,
            now + durationMinutes * 60000, dir, some none, false⟩] },
        .created⟩
  else ⟨db, .infraError⟩

/-- Outcome of the `/bid` handler, one constructor per reply message. -/
inductive BidOutcome where
  /-- "Please enter a valid bid amount." -/
  | invalidAmount
  /-- "Item '…' does not exist." -/
  | itemNotFound
  /-- "The auction for '…' has already ended." (direction variant only) -/
  | auctionEnded
  /-- "This item accepts bids towards low/high amounts only…" -/
  | wrongDirection
  /-- "Your bid must be within the range $low - $high." (simple variant) -/
  | outOfRange
  /-- "Your bid must be higher than the current highest bid of $cur." -/
  | bidTooLow (cur : Nat)
  /-- "Error placing your bid…" — the transaction aborted. -/
  | infraError
  /-- "Your bid of $… on '…' has been placed." -/
  | placed
deriving Repr, DecidableEq

/-- An outbid message `"You have been outbid on '<itemName>'. The new
highest bid is $<newAmount>."`, fire-and-forget (`bot.sendMessage` is not
awaited), sent to chat `dest`. -/
structure Notif where
  dest : Nat
  itemName : String
  newAmount : Nat
deriving Repr, DecidableEq

/-- Result of the `/bid` handler on the direction variant. -/
structure BidResult where
  db : DB
  outcome : BidOutcome
  notifs : List Notif
deriving Repr, DecidableEq

/-- The transactional tail of the `/bid` handler of
`src/unnamed/part_000`, entered once the current highest bid (if any) has
been beaten: insert the new `Bid` record into `bids` and overwrite the
item's `highestBid` with it, both under the session's transaction; then,
still before `commitTransaction`, look the previous highest bidder (if
any) up in `users` and fire an outbid message at `previousBidder.userId`.
`txOk = false` models any of the awaited persistence calls of the
transaction rejecting, in which case the `catch` block aborts the
transaction: nothing is committed and the generic error reply is sent. -/
def bidCommit (txOk : Bool) (db : DB) (now userId : Nat) (itemName : String)
    (bidAmount : Nat) (item : Item) (prevBid : Option Bid) : BidResult :=
  if txOk then
    let bid : Bid := ⟨item.id, userId, bidAmount, now⟩
    let db1 : DB := { db with
      bids := db.bids ++ [bid]
      items := updateFirst (fun i => i.id == item.id)
        (fun i => { i with highestBidField := some (some bid) }) db.items }
    let notifs : List Notif :=
      match prevBid with
      | some pb =>
        match db.users.find? (fun u => u.userId == pb.userId) with
        | some prev => [⟨prev.userId, itemName, bidAmount⟩]
        | none => []
      | none => []
    ⟨db1, .placed, notifs⟩
  else ⟨db, .infraError, []⟩

/-- The `/bid <name> <amount>` handler of `src/unnamed/part_000`.  In
order: reject amount `<= 0`; look the item up by name (`findOne`), reject
if missing; reject if `endTime <= now`; the direction check — for
`bidDirection = low` reject when `bidAmount >= highAmount`, for
`bidDirection = high` reject when `bidAmount <= lowAmount` (NO other
bound is checked); then under a transaction re-read the item by `_id`
(sequentially, the same record) and reject "bid too low" when a truthy
`highestBid` exists with `bidAmount <= highestBid.amount`, aborting the
transaction; otherwise commit via `bidCommit`. -/
def placeBid (txOk : Bool) (db : DB) (now userId : Nat) (itemName : String)
    (bidAmount : Nat) : BidResult :=
  if bidAmount = 0 then ⟨db, .invalidAmount, []⟩
  else
    match db.items.find? (fun i => i.name == itemName) with
    | none => ⟨db, .itemNotFound, []⟩
    | some item =>
      if item.endTime ≤ now then ⟨db, .auctionEnded, []⟩
      else if item.bidDirection = .low ∧ item.highAmount ≤ bidAmount then
        ⟨db, .wrongDirection, []⟩
      else if item.bidDirection = .high ∧ bidAmount ≤ item.lowAmount then
        ⟨db, .wrongDirection, []⟩
      else
        match item.highestBid with
        | some hb =>
          if bidAmount ≤ hb.amount then ⟨db, .bidTooLow hb.amount, []⟩
          else bidCommit txOk db now userId itemName bidAmount item (some hb)
        | none => bidCommit txOk db now userId itemName bidAmount item none

/-- A record of the `items` collection in the simpler `src/index.js`
variant: `{ name, creatorId, lowAmount, highAmount, highestBid }` — no
`endTime`, no `completed`, no `bidDirection`. -/
structure SItem where
  id : Nat
  name : String
  creatorId : Nat
  lowAmount : Nat
  highAmount : Nat
  highestBidField : Option (Option Bid)
deriving Repr, DecidableEq

/-- JavaScript truthiness of `item.highestBid` in the simple variant. -/
def SItem.highestBid (i : SItem) : Option Bid :=
  i.highestBidField.join

/-- The persistent state of `src/index.js`. -/
structure SDB where
  users : List User
  items : List SItem
  bids : List Bid
deriving Repr, DecidableEq

/-- Result of the `/bid` handler on the simple variant. -/
structure SBidResult where
  db : SDB
  outcome : BidOutcome
  notifs : List Notif
deriving Repr, DecidableEq

/-- Transactional tail of the `/bid` handler of `src/index.js`; identical
to `bidCommit` except that the outbid message goes to
`previousBidder.chatId`. -/
def bidCommitSimple (txOk : Bool) (db : SDB) (now userId : Nat)
    (itemName : String) (bidAmount : Nat) (item : SItem)
    (prevBid : Option Bid) : SBidResult :=
  if txOk then
    let bid : Bid := ⟨item.id, userId, bidAmount, now⟩
    let db1 : SDB := { db with
      bids := db.bids ++ [bid]
      items := updateFirst (fun i => i.id == item.id)
        (fun i => { i with highestBidField := some (some bid) }) db.items }
    let notifs : List Notif :=
      match prevBid with
      | some pb =>
        match db.users.find? (fun u => u.userId == pb.userId) with
        | some prev => [⟨prev.chatId, itemName, bidAmount⟩]
        | none => []
      | none => []
    ⟨db1, .placed, notifs⟩
  else ⟨db, .infraError, []⟩

/-- The `/bid <name> <amount>` handler of `src/index.js`: reject amount
`<= 0`; look the item up by name, reject if missing; reject unless
`lowAmount <= bidAmount <= highAmount` (the two-sided range check,
`bidAmount < item.lowAmount || bidAmount > item.highAmount`); then the
same transactional re-read/"bid too low"/commit sequence as the direction
variant. -/
def placeBidSimple (txOk : Bool) (db : SDB) (now userId : Nat)
    (itemName : String) (bidAmount : Nat) : SBidResult :=
  if bidAmount = 0 then ⟨db, .invalidAmount, []⟩
  else
    match db.items.find? (fun i => i.name == itemName) with
    | none => ⟨db, .itemNotFound, []⟩
    | some item =>
      if bidAmount < item.lowAmount || item.highAmount < bidAmount then
        ⟨db, .outOfRange, []⟩
      else
        match item.highestBid with
        | some hb =>
          if bidAmount ≤ hb.amount then ⟨db, .bidTooLow hb.amount, []⟩
          else bidCommitSimple txOk db now userId itemName bidAmount item (some hb)
        | none => bidCommitSimple txOk db now userId itemName bidAmount item none

/-- Observable steps of auction finalization, in the order they are
performed by `checkAndFinalizeAuction` in `src/unnamed/part_000`. -/
inductive FinAction where
  /-- "Congratulations! You have won the auction for '<name>' with a bid
  of $<amount>." sent to `winner.userId`. -/
  | notifyWinner (dest : Nat) (itemName : String) (amount : Nat)
  /-- "The auction for '<name>' has ended. The winning bid is $<amount>."
  sent to `creator.userId`; amount is `0` when there was no bid. -/
  | notifyCreator (dest : Nat) (itemName : String) (amount : Nat)
  /-- `updateOne({_id}, {$set: {completed: true}})` succeeded. -/
  | setCompleted (itemId : Nat)
  /-- `deleteOne({_id})` succeeded. -/
  | deleteItem (itemId : Nat)
  /-- The `catch` block inside `checkAndFinalizeAuction` logged an error
  from the update/delete pair. -/
  | logError (itemId : Nat)
deriving Repr, DecidableEq

/-- Failure oracles for one sweep tick, per item `_id`.  `winnerOk` /
`creatorOk` are the awaited winner-lookup-and-notify and
creator-lookup-and-notify phases (NOT inside any try/catch of
`checkAndFinalizeAuction`, so a rejection propagates to the caller);
`updateOk` / `deleteOk` are the `updateOne` / `deleteOne` calls (inside
its try/catch, so a rejection is only logged). -/
structure FinEnv where
  winnerOk : Nat → Bool
  creatorOk : Nat → Bool
  updateOk : Nat → Bool
  deleteOk : Nat → Bool

/-- Result of `checkAndFinalizeAuction` on one item: the database after
the call, the observable actions in order, and whether the promise
rejected (`threw = true` means an error escaped to the caller). -/
structure FinResult where
  db : DB
  actions : List FinAction
  threw : Bool
deriving Repr, DecidableEq

/-- `checkAndFinalizeAuction(item)` from `src/unnamed/part_000`, acting on
snapshot `item` against the current database.  Guard:
`item.endTime <= now && !item.completed`, else no-op.  Then, in source
order: if a truthy `highestBid` exists, `findOne` the winner in `users`
and (if registered) send the "won" message — both awaited and uncaught;
then `findOne` the creator and (if registered) send the "ended" message
with the winning amount (`highestBid ? highestBid.amount : 0`) — also
awaited and uncaught; finally, inside a try/catch, set
`completed: true` on the item and delete it, logging (not rethrowing) any
error from that pair. -/
def checkAndFinalizeAuction (env : FinEnv) (db : DB) (now : Nat)
    (item : Item) : FinResult :=
  if item.endTime ≤ now && !item.completed then
    match item.highestBid with
    | some b =>
      if env.winnerOk item.id then
        let acts1 : List FinAction :=
          match db.users.find? (fun u => u.userId == b.userId) with
          | some w => [.notifyWinner w.userId item.name b.amount]
          | none => []
        if env.creatorOk item.id then
          let acts2 : List FinAction :=
            match db.users.find? (fun u => u.userId == item.creatorId) with
            | some c => [.notifyCreator c.userId item.name b.amount]
            | none => []
          if env.updateOk item.id then
            let items1 := updateFirst (fun i => i.id == item.id)
              (fun i => { i with completed := true }) db.items
            if env.deleteOk item.id then
              ⟨{ db with items := deleteFirst (fun i => i.id == item.id) items1 },
                acts1 ++ acts2 ++ [.setCompleted item.id, .deleteItem item.id],
                false⟩
            else
              ⟨{ db with items := items1 },
                acts1 ++ acts2 ++ [.setCompleted item.id, .logError item.id],
                false⟩
          else ⟨db, acts1 ++ acts2 ++ [.logError item.id], false⟩
        else ⟨db, acts1, true⟩
      else ⟨db, [], true⟩
    | none =>
      if env.creatorOk item.id then
        let acts2 : List FinAction :=
          match db.users.find? (fun u => u.userId == item.creatorId) with
          | some c => [.notifyCreator c.userId item.name 0]
          | none => []
        if env.updateOk item.id then
          let items1 := updateFirst (fun i => i.id == item.id)
            (fun i => { i with completed := true }) db.items
          if env.deleteOk item.id then
            ⟨{ db with items := deleteFirst (fun i => i.id == item.id) items1 },
              acts2 ++ [.setCompleted item.id, .deleteItem item.id], false⟩
          else
            ⟨{ db with items := items1 },
              acts2 ++ [.setCompleted item.id, .logError item.id], false⟩
        else ⟨db, acts2 ++ [.logError item.id], false⟩
      else ⟨db, [], true⟩
  else ⟨db, [], false⟩

/-- Result of one sweep tick: database after the tick, observable actions,
and whether the tick's outer `catch` fired (aborting the rest of the
loop). -/
structure SweepResult where
  db : DB
  actions : List FinAction
  aborted : Bool
deriving Repr, DecidableEq

/-- The `for (const item of items) await checkAndFinalizeAuction(item)`
loop of the sweep in `src/unnamed/part_000`.  The whole loop sits inside
one try/catch: the first `checkAndFinalizeAuction` that rejects makes the
outer `catch` log the error and ends the tick, so the remaining snapshot
items are not processed. -/
def sweepLoop (env : FinEnv) (now : Nat) :
    DB → List Item → List FinAction → SweepResult
  | db, [], acc => ⟨db, acc, false⟩
  | db, i :: rest, acc =>
    let r := checkAndFinalizeAuction env db now i
    if r.threw then ⟨r.db, acc ++ r.actions, true⟩
    else sweepLoop env now r.db rest (acc ++ r.actions)

/-- One tick of the `setInterval(..., 60000)` sweep of
`src/unnamed/part_000`: query a snapshot of the expired, uncompleted items
(`{ endTime: { $lte: now }, completed: { $ne: true } }`, in natural
order), then finalize each in sequence via `sweepLoop`. -/
def sweep (env : FinEnv) (db : DB) (now : Nat) : SweepResult :=
  sweepLoop env now db
    (db.items.filter (fun i => decide (i.endTime ≤ now) && !i.completed)) []

/-- The `/biddeditems` query of `src/unnamed/part_000`:
`find({ highestBid: { $exists: true } })`.  Mongo's `$exists: true`
matches every document in which the field is PRESENT, including one whose
value is `null` — so the filter is `Option.isSome` on the raw field, not
truthiness of its value. -/
def listBiddedItems (db : DB) : List Item :=
  db.items.filter (fun i => i.highestBidField.isSome)

/-- Reply of the `/currentbid` handler of `src/unnamed/part_000`. -/
inductive CurrentBidReply where
  | notFound
  | noBids
  | amount (a : Nat)
deriving Repr, DecidableEq

/-- The `/currentbid <name>` handler: `findOne` by name; "does not exist"
when missing, "no bids yet" when `highestBid` is falsy, else the current
highest amount. -/
def currentbid (db : DB) (itemName : String) : CurrentBidReply :=
  match db.items.find? (fun i => i.name == itemName) with
  | none => .notFound
  | some item =>
    match item.highestBid with
    | none => .noBids
    | some b => .amount b.amount

/-! ## Sample data for witnesses and counterexamples -/

/-- A sample bid by user 7: amount 20 on item 0 at time 5. -/
def bid20 : Bid := ⟨0, 7, 20, 5⟩

/-- A sample direction-`high` item, bounds 10–100, expiring at 1000, whose
current highest bid is `bid20`. -/
def vase : Item := ⟨0, "vase", 1, 10, 100, 1000, .high, some (some bid20), false⟩

/-- A sample database: creator 1 and bidder 7 registered, the `vase` item
live, the bid log holding `bid20`. -/
def vaseDB : DB := ⟨[⟨1, 10⟩, ⟨7, 70⟩], [vase], [bid20]⟩

/-- A sample item of the simple variant, bounds 10–100, no bids yet
(`highestBid: null` as written by its `/createitem`). -/
def svase : SItem := ⟨0, "vase", 1, 10, 100, some none⟩

/-- A sample database of the simple variant: users 1 and 7 registered and
the fresh `svase` item. -/
def svaseDB : SDB := ⟨[⟨1, 10⟩, ⟨7, 70⟩], [svase], []⟩

/-! ## C1 — bid bounds -/

/-- C1 counterexample: on the direction variant an accepted bid need NOT
lie within `[lowAmount, highAmount]`.  `vase` has bounds 10–100 and
`bidDirection = high`, yet a bid of 500 passes the one-sided check
(`500 > 10`), beats the current highest bid of 20, and is committed as
`highestBid` with amount 500 > `highAmount` = 100. -/
theorem placeBid_bounds_cex :
    (placeBid true vaseDB 500 7 "vase" 500).outcome = .placed ∧
    (placeBid true vaseDB 500 7 "vase" 500).db.items
      = [{ vase with highestBidField := some (some ⟨0, 7, 500, 500⟩) }] ∧
    vase.highAmount < 500 := by decide

/-- C1 amended: the simple variant (`src/index.js`) enforces both bounds —
every accepted bid satisfies `lowAmount ≤ amount ≤ highAmount` — but the
direction variant (`src/unnamed/part_000`) enforces only the one-sided
direction check: an accepted bid on a `bidDirection = high` item satisfies
`amount > lowAmount` and on a `bidDirection = low` item
`amount < highAmount`, and nothing more, so its `highestBid.amount` can
leave the configured range. -/
theorem bid_bounds_amended :
    (∀ (txOk : Bool) (db : SDB) (now uid amt : Nat) (nm : String) (item : SItem),
      db.items.find? (fun i => i.name == nm) = some item →
      (placeBidSimple txOk db now uid nm amt).outcome = .placed →
      item.lowAmount ≤ amt ∧ amt ≤ item.highAmount) ∧
    (∀ (txOk : Bool) (db : DB) (now uid amt : Nat) (nm : String) (item : Item),
      db.items.find? (fun i => i.name == nm) = some item →
      (placeBid txOk db now uid nm amt).outcome = .placed →
      ((item.bidDirection = .high → item.lowAmount < amt) ∧
        (item.bidDirection = .low → amt < item.highAmount))) := by
  constructor
  · intro txOk db now uid amt nm item hfind
    simp only [placeBidSimple, hfind, bidCommitSimple]
    split
    · simp
    · split
      · intro h
        simp at h
      · split
        · split
          · simp
          · split <;> simp_all
        · split <;> simp_all
  · intro txOk db now uid amt nm item hfind
    simp only [placeBid, hfind, bidCommit]
    split
    · simp
    · split
      · simp
      · split
        · simp
        · next hlow =>
          split
          · simp
          · next hhigh =>
            split
            · split
              · simp
              · split
                · intro _
                  constructor <;> intro hd <;> rw [hd] at hlow hhigh <;>
                    simp at hlow hhigh <;> omega
                · simp
            · split
              · intro _
                constructor <;> intro hd <;> rw [hd] at hlow hhigh <;>
                  simp at hlow hhigh <;> omega
              · simp

/-- Witness for `bid_bounds_amended`: an accepted bid of 15 on the fresh
simple-variant item lies inside 10–100; an accepted bid of 30 on the
direction-`high` `vase` exceeds its `lowAmount` of 10. -/
theorem bid_bounds_amended_witness :
    (svaseDB.items.find? (fun i => i.name == "vase") = some svase) ∧
    ((placeBidSimple true svaseDB 0 7 "vase" 15).outcome = .placed) ∧
    (svase.lowAmount ≤ 15 ∧ 15 ≤ svase.highAmount) ∧
    (vaseDB.items.find? (fun i => i.name == "vase") = some vase) ∧
    ((placeBid true vaseDB 500 7 "vase" 30).outcome = .placed) ∧
    ((vase.bidDirection = .high → vase.lowAmount < 30) ∧
      (vase.bidDirection = .low → 30 < vase.highAmount)) :=
  ⟨by decide, by decide,
    bid_bounds_amended.1 true svaseDB 0 7 15 "vase" svase (by decide) (by decide),
    by decide, by decide,
    bid_bounds_amended.2 true vaseDB 500 7 30 "vase" vase (by decide) (by decide)⟩

/-! ## C2 — monotonicity of the committed highest bid -/

/-- C2: a bid on an item is committed as the new `highestBid` only when
its amount strictly exceeds the current `highestBid.amount`; a bid with
amount at most the current highest is rejected with "bid too low" — or by
an earlier guard — and leaves the database unchanged, so the successive
`highestBid.amount` values of an item strictly increase. -/
theorem placeBid_monotone (txOk : Bool) (db : DB) (now uid amt : Nat)
    (nm : String) (item : Item) (b : Bid)
    (hfind : db.items.find? (fun i => i.name == nm) = some item)
    (hb : item.highestBid = some b) :
    ((placeBid txOk db now uid nm amt).outcome = .placed → b.amount < amt) ∧
    (amt ≤ b.amount → (placeBid txOk db now uid nm amt).db = db ∧
      (placeBid txOk db now uid nm amt).outcome ≠ .placed) := by
  simp only [placeBid, hfind, hb, bidCommit]
  split
  · simp
  · split
    · simp
    · split
      · simp
      · split
        · simp
        · split
          · simp
          · split <;> simp_all

/-- C3: the `/bid` transaction is all-or-nothing.  On any outcome other
than `placed` — in particular on the "bid too low" conflict path, where
the transaction is aborted — the database is unchanged; on `placed` the
new `Bid` record is appended to the bid log AND the bidded item's
`highestBid` is overwritten with that same record, with the `users`
collection untouched, so no state has one of the two writes without the
other. -/
theorem placeBid_atomic (txOk : Bool) (db : DB) (now uid amt : Nat)
    (nm : String) :
    ((placeBid txOk db now uid nm amt).outcome ≠ .placed →
      (placeBid txOk db now uid nm amt).db = db) ∧
    ((placeBid txOk db now uid nm amt).outcome = .placed →
      ∃ item, db.items.find? (fun i => i.name == nm) = some item ∧
        (placeBid txOk db now uid nm amt).db.bids
          = db.bids ++ [⟨item.id, uid, amt, now⟩] ∧
        (placeBid txOk db now uid nm amt).db.items
          = updateFirst (fun i => i.id == item.id)
              (fun i => { i with
                highestBidField := some (some ⟨item.id, uid, amt, now⟩) })
              db.items ∧
        (placeBid txOk db now uid nm amt).db.users = db.users) ∧
    (∀ cur, (placeBid txOk db now uid nm amt).outcome = .bidTooLow cur →
      (placeBid txOk db now uid nm amt).db = db) := by
  unfold placeBid bidCommit
  split
  · simp
  · split
    · simp
    · next item heq =>
      split
      · simp
      · split
        · simp
        · split
          · simp
          · split
            · split
              · simp
              · split
                · refine ⟨by simp, fun _ => ⟨item, heq, rfl, rfl, rfl⟩, by simp⟩
                · simp
            · split
              · refine ⟨by simp, fun _ => ⟨item, heq, rfl, rfl, rfl⟩, by simp⟩
              · simp

/-- Witness for `placeBid_atomic`: the concrete accepted bid of 30 on
`vase` appends exactly one bid record and rewrites exactly the `vase`
record's `highestBid`. -/
theorem placeBid_atomic_witness :
    ((placeBid true vaseDB 500 7 "vase" 30).outcome ≠ .placed →
      (placeBid true vaseDB 500 7 "vase" 30).db = vaseDB) ∧
    ((placeBid true vaseDB 500 7 "vase" 30).outcome = .placed →
      ∃ item, vaseDB.items.find? (fun i => i.name == "vase") = some item ∧
        (placeBid true vaseDB 500 7 "vase" 30).db.bids
          = vaseDB.bids ++ [⟨item.id, 7, 30, 500⟩] ∧
        (placeBid true vaseDB 500 7 "vase" 30).db.items
          = updateFirst (fun i => i.id == item.id)
              (fun i => { i with
                highestBidField := some (some ⟨item.id, 7, 30, 500⟩) })
              vaseDB.items ∧
        (placeBid true vaseDB 500 7 "vase" 30).db.users = vaseDB.users) ∧
    (∀ cur, (placeBid true vaseDB 500 7 "vase" 30).outcome = .bidTooLow cur →
      (placeBid true vaseDB 500 7 "vase" 30).db = vaseDB) :=
  placeBid_atomic true vaseDB 500 7 30 "vase"

/-! ## C5 — outbid notification -/

/-- C5 counterexample: the outbid notification carries NO check that the
previous highest bidder differs from the new bidder.  User 7 holds the
highest bid of 20 on `vase` and raises it to 30 themselves; the handler
still dispatches the "you have been outbid" message to user 7. -/
theorem outbid_self_cex :
    (placeBid true vaseDB 500 7 "vase" 30).outcome = .placed ∧
    (placeBid true vaseDB 500 7 "vase" 30).notifs = [⟨7, "vase", 30⟩] ∧
    bid20.userId = 7 := by decide

/-- C5 amended: on the success path of `/bid`, exactly one outbid
notification is dispatched if and only if a previous highest bid existed
AND its bidder has a record in `users` — with no comparison against the
new bidder, so a user outbidding their own highest bid is notified too;
the dispatch is fire-and-forget and does not change the committed
outcome. -/
theorem outbid_notif_amended (txOk : Bool) (db : DB) (now uid amt : Nat)
    (nm : String) (item : Item)
    (hfind : db.items.find? (fun i => i.name == nm) = some item)
    (hplaced : (placeBid txOk db now uid nm amt).outcome = .placed) :
    (placeBid txOk db now uid nm amt).notifs
      = (match item.highestBid with
          | some pb =>
            (match db.users.find? (fun u => u.userId == pb.userId) with
              | some prev => [⟨prev.userId, nm, amt⟩]
              | none => [])
          | none => []) := by
  simp only [placeBid, bidCommit, hfind] at hplaced ⊢
  repeat' split
  all_goals simp_all

/-- Witness for `outbid_notif_amended`: user 9 outbids user 7 on `vase`;
the dispatched notifications are exactly one outbid message to user 7. -/
theorem outbid_notif_amended_witness :
    (vaseDB.items.find? (fun i => i.name == "vase") = some vase) ∧
    ((placeBid true vaseDB 500 9 "vase" 30).outcome = .placed) ∧
    (placeBid true vaseDB 500 9 "vase" 30).notifs
      = (match vase.highestBid with
          | some pb =>
            (match vaseDB.users.find? (fun u => u.userId == pb.userId) with
              | some prev => [⟨prev.userId, "vase", 30⟩]
              | none => [])
          | none => []) :=
  ⟨by decide, by decide,
    outbid_notif_amended true vaseDB 500 9 30 "vase" vase (by decide) (by decide)⟩

/-! ## C4 — the `/biddeditems` filter -/

/-- C4: the code contradicts its own help text ("List items that have
received bids").  `/createitem` stores `highestBid: null`, a PRESENT
field, and the `/biddeditems` query `{ highestBid: { $exists: true } }`
matches present-but-null fields — so a freshly created item that has never
received a bid (its truthy `highestBid` is still falsy) is returned by
`/biddeditems`. -/
theorem biddeditems_lists_unbid_item :
    (createitem true ⟨[⟨1, 10⟩], [], []⟩ 0 0 1 "vase" 10 20 5 .high).reply
      = .created ∧
    listBiddedItems (createitem true ⟨[⟨1, 10⟩], [], []⟩ 0 0 1
        "vase" 10 20 5 .high).db
      = [⟨0, "vase", 1, 10, 20, 300000, .high, some none, false⟩] ∧
    Item.highestBid ⟨0, "vase", 1, 10, 20, 300000, .high, some none, false⟩
      = none := by decide

/-! ## C6 — finalization -/

/-- An environment where every persistence and notification call
succeeds. -/
def allOk : FinEnv := ⟨fun _ => true, fun _ => true, fun _ => true, fun _ => true⟩

/-- A second live item with no bids, used alongside `vase` in sweep
scenarios. -/
def lamp : Item := ⟨1, "lamp", 1, 10, 100, 1000, .high, some none, false⟩

/-- A database holding both `vase` (with a bid) and `lamp` (without). -/
def twoItemDB : DB := ⟨[⟨1, 10⟩, ⟨7, 70⟩], [vase, lamp], [bid20]⟩

/-- Auxiliary: after updating the first record matching `p` with a
`p`-preserving map and then deleting the first record matching `p`, no
record matches `p` any more — provided at most one record matched to
begin with (Mongo guarantees `_id` uniqueness). -/
theorem find?_deleteFirst_updateFirst (p : α → Bool) (f : α → α)
    (hf : ∀ a, p (f a) = p a) (l : List α)
    (h : (l.filter p).length ≤ 1) :
    (deleteFirst p (updateFirst p f l)).find? p = none := by
  induction l with
  | nil => simp [updateFirst, deleteFirst]
  | cons x xs ih =>
    by_cases hx : p x = true
    · simp only [updateFirst, hx, if_pos, deleteFirst, hf]
      rw [List.find?_eq_none]
      intro a ha
      have hlen : (xs.filter p).length = 0 := by
        rw [List.filter_cons, if_pos hx, List.length_cons] at h
        omega
      have hnil : xs.filter p = [] := List.length_eq_zero.mp hlen
      have := List.filter_eq_nil_iff.mp hnil a ha
      simpa using this
    · have hx' : p x = false := by simpa using hx
      simp only [updateFirst, hx', Bool.false_eq_true, if_neg, deleteFirst]
      rw [if_neg (by simp [hx'])]
      rw [List.find?_cons_of_neg _ (by simp [hx'])]
      apply ih
      simpa [List.filter_cons, hx'] using h

/-- C6 counterexample: finalizing the expired `vase` performs the winner
and creator notifications BEFORE setting `completed = true`; the action
trace is not the claimed
`[setCompleted, notifyWinner, notifyCreator, deleteItem]` order. -/
theorem finalize_order_cex :
    (checkAndFinalizeAuction allOk vaseDB 2000 vase).actions
      = [.notifyWinner 7 "vase" 20, .notifyCreator 1 "vase" 20,
          .setCompleted 0, .deleteItem 0] ∧
    (checkAndFinalizeAuction allOk vaseDB 2000 vase).actions
      ≠ [.setCompleted 0, .notifyWinner 7 "vase" 20,
          .notifyCreator 1 "vase" 20, .deleteItem 0] := by decide

/-- C6 amended: finalizing an expired, uncompleted item performs, in this
order: notify the winning bidder (only when a highest bid exists and the
winner is registered), notify the creator with the final amount — the
winning amount, or 0 when no bids were placed — then set
`completed = true`, then delete the item record; afterwards no item record
with that `_id` exists.  First conjunct: the with-bid path (registered
winner and creator); second conjunct: the no-bid path, where the winner
phase is skipped entirely and the creator is told amount 0. -/
theorem finalize_amended :
    (∀ (env : FinEnv) (db : DB) (now : Nat) (item : Item) (b : Bid)
        (w c : User),
      item.endTime ≤ now → item.completed = false →
      item.highestBid = some b →
      db.users.find? (fun u => u.userId == b.userId) = some w →
      db.users.find? (fun u => u.userId == item.creatorId) = some c →
      env.winnerOk item.id = true → env.creatorOk item.id = true →
      env.updateOk item.id = true → env.deleteOk item.id = true →
      (db.items.filter (fun i => i.id == item.id)).length ≤ 1 →
      (checkAndFinalizeAuction env db now item).actions
        = [.notifyWinner w.userId item.name b.amount,
            .notifyCreator c.userId item.name b.amount,
            .setCompleted item.id, .deleteItem item.id] ∧
      (checkAndFinalizeAuction env db now item).threw = false ∧
      (checkAndFinalizeAuction env db now item).db.items.find?
          (fun i => i.id == item.id) = none) ∧
    (∀ (env : FinEnv) (db : DB) (now : Nat) (item : Item) (c : User),
      item.endTime ≤ now → item.completed = false →
      item.highestBid = none →
      db.users.find? (fun u => u.userId == item.creatorId) = some c →
      env.creatorOk item.id = true →
      env.updateOk item.id = true → env.deleteOk item.id = true →
      (db.items.filter (fun i => i.id == item.id)).length ≤ 1 →
      (checkAndFinalizeAuction env db now item).actions
        = [.notifyCreator c.userId item.name 0,
            .setCompleted item.id, .deleteItem item.id] ∧
      (checkAndFinalizeAuction env db now item).threw = false ∧
      (checkAndFinalizeAuction env db now item).db.items.find?
          (fun i => i.id == item.id) = none) := by
  constructor
  · intro env db now item b w c hexp hnc hb hw hc hwok hcok huok hdok huniq
    simp only [checkAndFinalizeAuction, hexp, hnc, hb, hw, hc, hwok, hcok,
      huok, hdok, if_true, Bool.not_false, Bool.and_true, decide_True]
    refine ⟨by trivial, by trivial, ?_⟩
    exact find?_deleteFirst_updateFirst (fun i => i.id == item.id)
      (fun i => { i with completed := true }) (fun a => rfl) db.items huniq
  · intro env db now item c hexp hnc hb hc hcok huok hdok huniq
    simp only [checkAndFinalizeAuction, hexp, hnc, hb, hc, hcok,
      huok, hdok, if_true, Bool.not_false, Bool.and_true, decide_True]
    refine ⟨by trivial, by trivial, ?_⟩
    exact find?_deleteFirst_updateFirst (fun i => i.id == item.id)
      (fun i => { i with completed := true }) (fun a => rfl) db.items huniq

/-- Witness for `finalize_amended`, both paths: the expired `vase` (with
a bid by the registered user 7) is finalized with the four actions in
source order; the expired bid-less `lamp` is finalized with the creator
told amount 0, no winner notification, and the same
completed-then-delete tail.  In both cases the finalized record is gone
afterwards. -/
theorem finalize_amended_witness :
    (vase.endTime ≤ 2000 ∧ vase.completed = false ∧
      vase.highestBid = some bid20 ∧
      vaseDB.users.find? (fun u => u.userId == bid20.userId) = some ⟨7, 70⟩ ∧
      vaseDB.users.find? (fun u => u.userId == vase.creatorId) = some ⟨1, 10⟩ ∧
      (vaseDB.items.filter (fun i => i.id == vase.id)).length ≤ 1) ∧
    ((checkAndFinalizeAuction allOk vaseDB 2000 vase).actions
        = [.notifyWinner 7 "vase" 20, .notifyCreator 1 "vase" 20,
            .setCompleted 0, .deleteItem 0] ∧
      (checkAndFinalizeAuction allOk vaseDB 2000 vase).threw = false ∧
      (checkAndFinalizeAuction allOk vaseDB 2000 vase).db.items.find?
          (fun i => i.id == vase.id) = none) ∧
    (lamp.endTime ≤ 2000 ∧ lamp.completed = false ∧
      lamp.highestBid = none ∧
      twoItemDB.users.find? (fun u => u.userId == lamp.creatorId)
        = some ⟨1, 10⟩ ∧
      (twoItemDB.items.filter (fun i => i.id == lamp.id)).length ≤ 1) ∧
    ((checkAndFinalizeAuction allOk twoItemDB 2000 lamp).actions
        = [.notifyCreator 1 "lamp" 0, .setCompleted 1, .deleteItem 1] ∧
      (checkAndFinalizeAuction allOk twoItemDB 2000 lamp).threw = false ∧
      (checkAndFinalizeAuction allOk twoItemDB 2000 lamp).db.items.find?
          (fun i => i.id == lamp.id) = none) :=
  ⟨by decide,
    finalize_amended.1 allOk vaseDB 2000 vase bid20 ⟨7, 70⟩ ⟨1, 10⟩
      (by decide) (by decide) (by decide) (by decide) (by decide)
      (by decide) (by decide) (by decide) (by decide) (by decide),
    by decide,
    finalize_amended.2 allOk twoItemDB 2000 lamp ⟨1, 10⟩
      (by decide) (by decide) (by decide) (by decide) (by decide)
      (by decide) (by decide) (by decide)⟩

/-! ## C7 — error containment in the sweep -/

/-- An environment where the winner lookup/notification rejects for item
`_id` 0 and everything else succeeds. -/
def winnerFailEnv : FinEnv :=
  ⟨fun i => decide (i ≠ 0), fun _ => true, fun _ => true, fun _ => true⟩

/-- An environment where the `updateOne({completed: true})` call rejects
for item `_id` 0 and everything else succeeds. -/
def updateFailEnv : FinEnv :=
  ⟨fun _ => true, fun _ => true, fun i => decide (i ≠ 0), fun _ => true⟩

/-- C7 counterexample: in a tick matching both expired items `vase` and
`lamp`, a winner-lookup failure while finalizing `vase` escapes
`checkAndFinalizeAuction`, lands in the sweep's single outer catch, and
aborts the tick — `lamp` matched the query but is left unfinalized and no
action at all is performed. -/
theorem sweep_abort_cex :
    (sweep winnerFailEnv twoItemDB 2000).aborted = true ∧
    (sweep winnerFailEnv twoItemDB 2000).db.items = [vase, lamp] ∧
    (sweep winnerFailEnv twoItemDB 2000).actions = [] ∧
    lamp.endTime ≤ 2000 ∧ lamp.completed = false := by decide

/-- C7 amended: only failures of the `updateOne`/`deleteOne` pair are
caught (and logged) inside `checkAndFinalizeAuction`, so when the winner
and creator notification phases succeed the call never rejects — whatever
the persistence oracles do — and the sweep loop goes on to process the
remaining matched items of the tick; a failure in a notification lookup,
by contrast, rejects and ends the tick (see the counterexample). -/
theorem sweep_containment_amended (env : FinEnv) (db : DB) (now : Nat)
    (item : Item) (rest : List Item) (acc : List FinAction)
    (hwok : env.winnerOk item.id = true)
    (hcok : env.creatorOk item.id = true) :
    (checkAndFinalizeAuction env db now item).threw = false ∧
    sweepLoop env now db (item :: rest) acc
      = sweepLoop env now (checkAndFinalizeAuction env db now item).db rest
          (acc ++ (checkAndFinalizeAuction env db now item).actions) := by
  have h1 : (checkAndFinalizeAuction env db now item).threw = false := by
    simp only [checkAndFinalizeAuction]
    repeat' split
    all_goals simp_all
  refine ⟨h1, ?_⟩
  simp [sweepLoop, h1]

/-- Witness for `sweep_containment_amended`: with the persistence update
failing on `vase`, finalization still returns normally and the loop
continues with `lamp`. -/
theorem sweep_containment_amended_witness :
    (updateFailEnv.winnerOk vase.id = true ∧
      updateFailEnv.creatorOk vase.id = true) ∧
    ((checkAndFinalizeAuction updateFailEnv twoItemDB 2000 vase).threw
        = false ∧
      sweepLoop updateFailEnv 2000 twoItemDB [vase, lamp] []
        = sweepLoop updateFailEnv 2000
            (checkAndFinalizeAuction updateFailEnv twoItemDB 2000 vase).db
            [lamp]
            ([] ++ (checkAndFinalizeAuction updateFailEnv
                twoItemDB 2000 vase).actions)) :=
  ⟨⟨by decide, by decide⟩,
    sweep_containment_amended updateFailEnv twoItemDB 2000 vase [lamp] []
      (by decide) (by decide)⟩

/-- Witness for `placeBid_monotone` at a concrete database: user 7 raises
the current highest bid of 20 on `vase` to 30. -/
theorem placeBid_monotone_witness :
    (vaseDB.items.find? (fun i => i.name == "vase") = some vase) ∧
    (vase.highestBid = some bid20) ∧
    (((placeBid true vaseDB 500 7 "vase" 30).outcome = .placed →
        bid20.amount < 30) ∧
      (30 ≤ bid20.amount → (placeBid true vaseDB 500 7 "vase" 30).db = vaseDB ∧
        (placeBid true vaseDB 500 7 "vase" 30).outcome ≠ .placed)) :=
  ⟨by decide, by decide,
    placeBid_monotone true vaseDB 500 7 30 "vase" vase bid20
      (by decide) (by decide)⟩

/-! ## C8 — idempotent registration -/

/-- C8: `/register` is idempotent.  Starting from a state without a record
for `uid`, the first call inserts exactly one user record and replies with
the success message; the second call writes nothing, leaves the state of
the first call untouched, and replies with the distinct "already
registered" message. -/
theorem register_idempotent (db : DB) (uid chat : Nat)
    (h : db.users.find? (fun u => u.userId == uid) = none) :
    (register true db uid chat).reply = .success ∧
    (register true (register true db uid chat).db uid chat).reply
      = .alreadyRegistered ∧
    (register true (register true db uid chat).db uid chat).db
      = (register true db uid chat).db ∧
    ((register true db uid chat).db.users.filter
        (fun u => u.userId == uid)).length = 1 := by
  have hfilter : db.users.filter (fun u => u.userId == uid) = [] := by
    rw [List.filter_eq_nil_iff]
    intro a ha
    have := List.find?_eq_none.mp h a ha
    simpa using this
  simp [register, h, List.find?_append, List.filter_append, hfilter]

/-- Witness for `register_idempotent` from the empty database. -/
theorem register_idempotent_witness :
    ((⟨[], [], []⟩ : DB).users.find? (fun u => u.userId == 1) = none) ∧
    ((register true ⟨[], [], []⟩ 1 10).reply = .success ∧
      (register true (register true ⟨[], [], []⟩ 1 10).db 1 10).reply
        = .alreadyRegistered ∧
      (register true (register true ⟨[], [], []⟩ 1 10).db 1 10).db
        = (register true ⟨[], [], []⟩ 1 10).db ∧
      ((register true ⟨[], [], []⟩ 1 10).db.users.filter
          (fun u => u.userId == 1)).length = 1) :=
  ⟨by decide, register_idempotent ⟨[], [], []⟩ 1 10 (by decide)⟩

/-! ## C9 — no uniqueness of item names -/

/-- C9 counterexample: nothing enforces name uniqueness — neither the
`/createitem` handler (no lookup before the insert) nor any index creation
anywhere in the source.  Two `/createitem vase 10 20 5 high` calls by the
registered user 1 both succeed and leave TWO item records named
`"vase"`. -/
theorem createitem_dup_cex :
    (createitem true ⟨[⟨1, 10⟩], [], []⟩ 0 0 1 "vase" 10 20 5 .high).reply
      = .created ∧
    (createitem true
        (createitem true ⟨[⟨1, 10⟩], [], []⟩ 0 0 1 "vase" 10 20 5 .high).db
        1 0 1 "vase" 10 20 5 .high).reply = .created ∧
    ((createitem true
        (createitem true ⟨[⟨1, 10⟩], [], []⟩ 0 0 1 "vase" 10 20 5 .high).db
        1 0 1 "vase" 10 20 5 .high).db.items.filter
      (fun i => i.name == "vase")).length = 2 := by decide

/-- C9 amended: `/createitem` performs no duplicate-name check: for a
registered user and valid bounds it unconditionally appends a new item
record, so the number of records carrying the requested name always grows
by one — queries by name (`findOne`) later return only the first of
them. -/
theorem createitem_dup_amended (db : DB) (newId now uid low high dur : Nat)
    (nm : String) (dir : BidDirection) (u : User)
    (hlow : 0 < low) (hrange : low < high)
    (hreg : db.users.find? (fun w => w.userId == uid) = some u) :
    (createitem true db newId now uid nm low high dur dir).reply
      = .created ∧
    ((createitem true db newId now uid nm low high dur dir).db.items.filter
        (fun i => i.name == nm)).length
      = (db.items.filter (fun i => i.name == nm)).length + 1 := by
  have h1 : ¬(low = 0) := by omega
  have h2 : ¬(high = 0) := by omega
  have h3 : ¬(high ≤ low) := by omega
  simp [createitem, h1, h2, h3, hreg, List.filter_append]

/-- Witness for `createitem_dup_amended`: a second `"vase"` next to an
existing one. -/
theorem createitem_dup_amended_witness :
    ((0 : Nat) < 10 ∧ (10 : Nat) < 20 ∧
      vaseDB.users.find? (fun w => w.userId == 1) = some ⟨1, 10⟩) ∧
    ((createitem true vaseDB 5 0 1 "vase" 10 20 5 .high).reply = .created ∧
      ((createitem true vaseDB 5 0 1 "vase" 10 20 5 .high).db.items.filter
          (fun i => i.name == "vase")).length
        = (vaseDB.items.filter (fun i => i.name == "vase")).length + 1) :=
  ⟨⟨by decide, by decide, by decide⟩,
    createitem_dup_amended vaseDB 5 0 1 10 20 5 "vase" .high ⟨1, 10⟩
      (by decide) (by decide) (by decide)⟩

/-! ## C10 — `/createitem` requires registration -/

/-- C10: `/createitem` with valid bounds by a user without a record in
`users` inserts nothing — the whole database is unchanged — and answers
with the "you need to register first" message. -/
theorem createitem_requires_registration
    (db : DB) (newId now uid low high dur : Nat)
    (nm : String) (dir : BidDirection)
    (hlow : 0 < low) (hrange : low < high)
    (hunreg : db.users.find? (fun u => u.userId == uid) = none) :
    (createitem true db newId now uid nm low high dur dir).reply
      = .needRegister ∧
    (createitem true db newId now uid nm low high dur dir).db = db := by
  have h1 : ¬(low = 0) := by omega
  have h2 : ¬(high = 0) := by omega
  have h3 : ¬(high ≤ low) := by omega
  simp [createitem, h1, h2, h3, hunreg]

/-- Witness for `createitem_requires_registration`: the unregistered user
2 cannot create an item in `vaseDB`. -/
theorem createitem_requires_registration_witness :
    ((0 : Nat) < 10 ∧ (10 : Nat) < 20 ∧
      vaseDB.users.find? (fun u => u.userId == 2) = none) ∧
    ((createitem true vaseDB 5 0 2 "bowl" 10 20 5 .high).reply
        = .needRegister ∧
      (createitem true vaseDB 5 0 2 "bowl" 10 20 5 .high).db = vaseDB) :=
  ⟨⟨by decide, by decide, by decide⟩,
    createitem_requires_registration vaseDB 5 0 2 10 20 5 "bowl" .high
      (by decide) (by decide) (by decide)⟩
